import Mathlib

/-!
Verification of the similarity-based duplicate-detection workflow of the
plagiarism-checker service (`main.py`, with `app.py` as the older variant).

The development shallowly embeds the relevant parts of `main.py`:

* the duplicate decision engine (`check_plagiarism`, lines 256-268): the loop
  over `(doc, score)` search results that computes `plagiarism_detected`,
  `max_score` and `matched_files`;
* the corpus admission policy and response assembly (lines 270-294);
* the summarizer output parser `parse_chain_output` (lines 170-193), together
  with exact embeddings of the Python string primitives it uses
  (`str.split`, `str.replace`, `str.strip`);
* the upload validation `validate_file` (lines 143-168).

Python floats appear only as similarity scores and the threshold; the code
performs no arithmetic on them beyond comparison and `max`, so they are
embedded as rationals (`ℚ`).  Python strings are embedded as Lean `String`,
with the string algorithms spelled out on `List Char` by structural/fuel
recursion so that every definition evaluates inside the kernel.
-/

/-! ## Python string primitives (exact semantics on `List Char`) -/

/-- Characters stripped by Python `str.strip()` (default whitespace set). -/
def pyIsSpace (c : Char) : Bool :=
  c == ' ' || c == '\t' || c == '\n' || c == '\r' || c == '\x0b' || c == '\x0c'

/-- Python `s.strip()`: drop whitespace from both ends. -/
def pyStrip (s : List Char) : List Char :=
  ((s.dropWhile pyIsSpace).reverse.dropWhile pyIsSpace).reverse

/-- Index of the leftmost occurrence of `sep` in `s` (Python `s.find(sep)` for a
non-empty `sep`), or `none` when `sep` does not occur. -/
def findMarker (sep : List Char) : List Char → Option Nat
  | [] => none
  | c :: rest =>
    if sep.isPrefixOf (c :: rest) then some 0 else (findMarker sep rest).map (· + 1)

/-- Fuel-driven worker for Python `s.split(sep)` (non-empty `sep`): cut at each
leftmost occurrence of `sep`, left to right.  `fuel ≥ s.length` makes the fuel
irrelevant. -/
def pySplitF (sep : List Char) : Nat → List Char → List (List Char)
  | 0, s => [s]
  | fuel + 1, s =>
    match findMarker sep s with
    | none => [s]
    | some i => s.take i :: pySplitF sep fuel (s.drop (i + sep.length))

/-- Python `s.split(sep)` for a non-empty separator. -/
def pySplit (sep s : List Char) : List (List Char) :=
  pySplitF sep s.length s

/-- Fuel-driven worker for Python `s.replace(old, new)` (non-empty `old`). -/
def pyReplaceF (old new : List Char) : Nat → List Char → List Char
  | 0, s => s
  | fuel + 1, s =>
    match findMarker old s with
    | none => s
    | some i => s.take i ++ new ++ pyReplaceF old new fuel (s.drop (i + old.length))

/-- Python `s.replace(old, new)` for a non-empty `old`: rewrite every
leftmost-first occurrence. -/
def pyReplace (old new s : List Char) : List Char :=
  pyReplaceF old new s.length s

/-- The segment of `s` before the first occurrence of `sep` (all of `s` when
`sep` does not occur). -/
def beforeFirst (sep s : List Char) : List Char :=
  match findMarker sep s with
  | none => s
  | some i => s.take i

/-! ## Data model -/

/-- The similarity threshold: the literal `0.75` of `main.py` line 259
(`threshold = 0.75`), as the reduced rational 3/4. -/
def THRESHOLD : ℚ := ⟨3, 4, by decide, by decide⟩

/-- `MAX_FILE_SIZE = 10 * 1024 * 1024` of `main.py` line 154. -/
def MAX_FILE_SIZE : Nat := 10 * 1024 * 1024

/-- One similarity-search result `(doc, score)` as consumed by the decision
loop: `doc.metadata.get("source_file")` (absent key gives `none`) and the
similarity score. -/
structure SimilarityMatch where
  sourceFile : Option String
  score : ℚ
deriving Repr, DecidableEq

/-- The three locals computed by the decision loop of `check_plagiarism`
(`main.py` lines 256-268). -/
structure DecisionResult where
  plagiarism_detected : Bool
  max_score : ℚ
  matched_files : List String
deriving Repr, DecidableEq

/-- Python truthiness of the optional string `doc.metadata.get("source_file")`:
`None` and `""` are falsy. -/
def truthySrc : Option String → Bool
  | none => false
  | some s => s != ""

/-- One iteration of the decision loop (`main.py` lines 261-268), with the
threshold as a parameter (the code fixes it to `THRESHOLD`):

```
for doc, score in results:
    if score > max_score:
        max_score = score
    if score >= threshold:
        plagiarism_detected = True
        source_file = doc.metadata.get("source_file")
        if source_file and source_file not in matched_files:
            matched_files.append(source_file)
```
-/
def analyzeStep (thr : ℚ) (st : DecisionResult) (m : SimilarityMatch) : DecisionResult :=
  let st1 := if st.max_score < m.score then { st with max_score := m.score } else st
  if thr ≤ m.score then
    let st2 := { st1 with plagiarism_detected := true }
    match m.sourceFile with
    | none => st2
    | some s =>
      if s ≠ "" ∧ s ∉ st2.matched_files then
        { st2 with matched_files := st2.matched_files ++ [s] }
      else st2
  else st1

/-- The decision loop over the ranked matches, starting from
`plagiarism_detected = False`, `matched_files = []`, `max_score = 0`, with the
threshold as a parameter. -/
def analyzeMatchesWith (thr : ℚ) (ms : List SimilarityMatch) : DecisionResult :=
  ms.foldl (analyzeStep thr) ⟨false, 0, []⟩

/-- The decision engine as `main.py` runs it (threshold `0.75`). -/
def analyzeMatches (ms : List SimilarityMatch) : DecisionResult :=
  analyzeMatchesWith THRESHOLD ms

/-! ## HTTP-level records -/

deriving instance DecidableEq for Except

/-- A raised `HTTPException(status_code=..., detail=...)`. -/
structure HTTPError where
  status : Nat
  detail : String
deriving Repr, DecidableEq

/-- The JSON body assembled at `main.py` lines 285-291. -/
structure ResponseData where
  plagiarism_detected : Bool
  max_score : ℚ
  matched_files : List String
  threshold : ℚ
  document_added : Bool
deriving Repr, DecidableEq

/-- An HTTP response: `JSONResponse(response_data)` carries status 200. -/
structure HttpResponse where
  status : Nat
  body : ResponseData
deriving Repr, DecidableEq

/-! ## Summarizer output parser -/

/-- The marker `"SKILLS:"`. -/
def skMark : List Char := "SKILLS:".data

/-- The marker `"SUMMARY:"`. -/
def smMark : List Char := "SUMMARY:".data

/-- `parse_chain_output` (`main.py` lines 170-193):

```
parts = output.split("SKILLS:")
summary_text = parts[0].replace("SUMMARY:", "").strip()
skills = parts[1].strip() if len(parts) > 1 else ""
if not summary_text:
    raise ValueError("No summary found in chain output")
return summary_text, skills
```

The `except` re-raises any failure as `HTTPException(500, "Failed to process
document content")`; the only failing path is the empty-summary `ValueError`. -/
def parse_chain_output (output : String) : Except HTTPError (String × String) :=
  let parts := pySplit skMark output.data
  let summary_text := pyStrip (pyReplace smMark [] (parts.headD []))
  let skills :=
    match parts with
    | _ :: p1 :: _ => pyStrip p1
    | _ => []
  if summary_text = [] then
    .error ⟨500, "Failed to process document content"⟩
  else
    .ok (⟨summary_text⟩, ⟨skills⟩)

/-- The outcome of the parser expressed from a summary/skills pair: fail with
the 500 error on an empty summary, succeed otherwise.  Used to state what the
parser returns on each input. -/
def parseResult (summary_text skills : List Char) : Except HTTPError (String × String) :=
  if summary_text = [] then
    .error ⟨500, "Failed to process document content"⟩
  else
    .ok (⟨summary_text⟩, ⟨skills⟩)

/-- The summary the parser computes on `output`: the text before the first
`SKILLS:` occurrence, with every `SUMMARY:` occurrence removed, whitespace
trimmed. -/
def summaryOf (output : String) : List Char :=
  pyStrip (pyReplace smMark [] (beforeFirst skMark output.data))

/-- The skills string the parser computes on `output`: the whitespace-trimmed
text strictly between the first `SKILLS:` occurrence and the next one (to the
end when there is no second occurrence), and `""` when the marker is absent. -/
def skillsOf (output : String) : List Char :=
  match findMarker skMark output.data with
  | none => []
  | some i => pyStrip (beforeFirst skMark (output.data.drop (i + skMark.length)))

/-- The skills string as the specification words it: the whitespace-trimmed
text after the first `SKILLS:` occurrence, all the way to the end of the
output, and `""` when the marker is absent.  (Stated from the spec sentence,
for comparison with the code's behaviour.) -/
def specSkills (output : String) : List Char :=
  match findMarker skMark output.data with
  | none => []
  | some i => pyStrip (output.data.drop (i + skMark.length))

/-! ## Upload validation -/

/-- The attributes of a bound `fastapi.UploadFile` that `check_plagiarism`
consults, plus `dataLen`, the number of bytes `await file.read()` returns
(the actual byte length of the upload, which `validate_file` never reads). -/
structure UploadFile where
  filename : Option String
  contentType : Option String
  size : Option Nat
  dataLen : Nat
deriving Repr, DecidableEq

/-- Python truthiness of the optional `file.size`: `None` and `0` are falsy. -/
def truthySize : Option Nat → Bool
  | none => false
  | some n => n != 0

/-- Python truthiness of an optional string attribute. -/
def truthyStr : Option String → Bool
  | none => false
  | some s => s != ""

/-- Python `s.lower()` (ASCII, which covers the `.pdf` check). -/
def pyLower (s : String) : String :=
  ⟨s.data.map Char.toLower⟩

/-- Python `s.endswith(suffix)`. -/
def pyEndsWith (suffix s : List Char) : Bool :=
  suffix.reverse.isPrefixOf s.reverse

/-- `validate_file` (`main.py` lines 143-168):

```
if file.size and file.size > MAX_FILE_SIZE:
    raise HTTPException(413, "File size too large (max 10MB)")
if not file.filename:
    raise HTTPException(400, "Filename is required")
if not file.filename.lower().endswith('.pdf'):
    raise HTTPException(400, "Only PDF files are supported")
if file.content_type and file.content_type not in ['application/pdf']:
    raise HTTPException(400, "Invalid content type. Expected application/pdf")
```
-/
def validate_file (f : UploadFile) : Except HTTPError Unit :=
  if truthySize f.size && decide (MAX_FILE_SIZE < f.size.getD 0) then
    .error ⟨413, "File size too large (max 10MB)"⟩
  else if !truthyStr f.filename then
    .error ⟨400, "Filename is required"⟩
  else if !pyEndsWith ".pdf".data (pyLower (f.filename.getD "")).data then
    .error ⟨400, "Only PDF files are supported"⟩
  else if truthyStr f.contentType && !(f.contentType.getD "" == "application/pdf") then
    .error ⟨400, "Invalid content type. Expected application/pdf"⟩
  else
    .ok ()

/-- The multipart part carried by the `file` field of a
`POST /check-plagiarism` request, before FastAPI binds it to an `UploadFile`. -/
structure MultipartPart where
  filename : Option String
  contentType : Option String
  size : Option Nat
  dataLen : Nat
deriving Repr, DecidableEq

/-- Modelled from the spec: FastAPI's request-validation layer, which is not
part of this repository's sources (only `main.py` declares
`file: UploadFile = File(...)` and `test_app.py` exercises it).  Per the spec's
error table ("422 for missing filename") and the repository test
`test_empty_filename`, a multipart part whose filename is missing or empty
fails request validation with status 422 before the endpoint body runs. -/
def bindUploadFile (p : MultipartPart) : Except HTTPError UploadFile :=
  if p.filename = none ∨ p.filename = some "" then
    .error ⟨422, "Unprocessable Entity"⟩
  else
    .ok ⟨p.filename, p.contentType, p.size, p.dataLen⟩

/-- The upload-handling phase of a request: FastAPI binding, then
`validate_file`. -/
def uploadPhase (p : MultipartPart) : Except HTTPError UploadFile :=
  match bindUploadFile p with
  | .error e => .error e
  | .ok f =>
    match validate_file f with
    | .error e => .error e
    | .ok _ => .ok f

/-! ## Admission policy and response assembly -/

/-- Whether `vector_store.add_documents([new_doc])` raised. -/
inductive InsertOutcome
  | ok
  | failed
deriving Repr, DecidableEq

/-- Observable corpus effects of one request. -/
inductive CorpusEvent
  | insertDoc
deriving Repr, DecidableEq

/-- Python `round(q, 4)` with round-half-to-even, on exact rationals. -/
def pyRoundHalfEven (q : ℚ) : ℤ :=
  let f : ℤ := ⌊q⌋
  let r : ℚ := q - f
  if r < 1/2 then f
  else if 1/2 < r then f + 1
  else if f % 2 = 0 then f else f + 1

/-- `round(max_score, 4)` of `main.py` line 287. -/
def round4 (q : ℚ) : ℚ :=
  (pyRoundHalfEven (q * 10000) : ℚ) / 10000

/-- The `response_data` dict of `main.py` lines 285-291. -/
def responseOf (d : DecisionResult) : ResponseData :=
  ⟨d.plagiarism_detected, round4 d.max_score, d.matched_files, THRESHOLD,
    !d.plagiarism_detected⟩

/-- The corpus interactions performed after the decision (`main.py` lines
270-283): `add_documents` is called once inside `if not plagiarism_detected`;
when it raises, the `except` block only logs and falls through. -/
def insertEvents (d : DecisionResult) (oc : InsertOutcome) : List CorpusEvent :=
  if d.plagiarism_detected then []
  else
    match oc with
    | .ok => [.insertDoc]
    | .failed => [.insertDoc]

/-- The tail of `check_plagiarism` after the decision loop: the corpus
interaction followed by `return JSONResponse(response_data)` (status 200). -/
def requestTail (d : DecisionResult) (oc : InsertOutcome) :
    List CorpusEvent × HttpResponse :=
  (insertEvents d oc, ⟨200, responseOf d⟩)

/-! ## Claim-side descriptions of the decision loop -/

/-- The file label a match contributes under the code's eligibility test:
score at or above the threshold, and a present, non-empty source file. -/
def eligFile (thr : ℚ) (m : SimilarityMatch) : Option String :=
  if thr ≤ m.score then
    match m.sourceFile with
    | some s => if s ≠ "" then some s else none
    | none => none
  else none

/-- All eligible file labels of a match list, in encounter order. -/
def eligFiles (thr : ℚ) (ms : List SimilarityMatch) : List String :=
  ms.filterMap (eligFile thr)

/-- First-occurrence deduplication, relative to an already-seen list. -/
def dedupFirstAux (seen : List String) : List String → List String
  | [] => []
  | x :: xs =>
    if x ∈ seen then dedupFirstAux seen xs
    else x :: dedupFirstAux (x :: seen) xs

/-- Remove duplicates, keeping the first occurrence of each value. -/
def dedupFirst (l : List String) : List String :=
  dedupFirstAux [] l

/-- The matched files as the specification words them: the `matchedSourceFile`
values of all matches at or above the threshold (no truthiness filter),
deduplicated in first-encounter order.  (Stated from the spec sentence, for
comparison with the code's behaviour; a missing source file contributes
nothing, since the spec's record always carries a string.) -/
def specMatchedFiles (thr : ℚ) (ms : List SimilarityMatch) : List String :=
  dedupFirst ((ms.filter (fun m => thr ≤ m.score)).filterMap SimilarityMatch.sourceFile)

/-! ## Lemmas about the decision loop -/

theorem analyzeStep_max_score (thr : ℚ) (st : DecisionResult) (m : SimilarityMatch) :
    (analyzeStep thr st m).max_score = max st.max_score m.score := by
  unfold analyzeStep
  by_cases hlt : st.max_score < m.score
  · simp only [hlt, if_true]
    by_cases hth : thr ≤ m.score
    · simp only [hth, if_true]
      cases m.sourceFile with
      | none => simp [max_eq_right hlt.le]
      | some s =>
        by_cases hc : s ≠ "" ∧ s ∉ st.matched_files <;>
          simp [hc, max_eq_right hlt.le]
    · simp [hth, max_eq_right hlt.le]
  · simp only [hlt, if_false]
    have hmax : max st.max_score m.score = st.max_score :=
      max_eq_left (le_of_not_lt hlt)
    by_cases hth : thr ≤ m.score
    · simp only [hth, if_true]
      cases m.sourceFile with
      | none => simp [hmax]
      | some s =>
        by_cases hc : s ≠ "" ∧ s ∉ st.matched_files <;> simp [hc, hmax]
    · simp [hth, hmax]

theorem analyzeStep_plag (thr : ℚ) (st : DecisionResult) (m : SimilarityMatch) :
    (analyzeStep thr st m).plagiarism_detected
      = (st.plagiarism_detected || decide (thr ≤ m.score)) := by
  unfold analyzeStep
  by_cases hth : thr ≤ m.score
  · simp only [hth, decide_eq_true hth, Bool.or_true]
    by_cases hlt : st.max_score < m.score <;>
    · simp only [hlt, if_true, if_false, ite_true, ite_false]
      cases m.sourceFile with
      | none => simp [hth]
      | some s =>
        by_cases hc : s ≠ "" ∧ s ∉ st.matched_files <;> simp [hth, hc]
  · by_cases hlt : st.max_score < m.score <;> simp [hlt, hth]

theorem analyzeStep_matched (thr : ℚ) (st : DecisionResult) (m : SimilarityMatch) :
    (analyzeStep thr st m).matched_files
      = match eligFile thr m with
        | some s => if s ∈ st.matched_files then st.matched_files
                    else st.matched_files ++ [s]
        | none => st.matched_files := by
  unfold analyzeStep eligFile
  by_cases hth : thr ≤ m.score
  · by_cases hlt : st.max_score < m.score <;>
    · simp only [hth, hlt, if_true, if_false, ite_true, ite_false]
      cases m.sourceFile with
      | none => simp
      | some s =>
        by_cases hs : s = ""
        · simp [hs]
        · by_cases hmem : s ∈ st.matched_files <;> simp [hs, hmem]
  · by_cases hlt : st.max_score < m.score <;> simp [hth, hlt]

theorem dedupFirstAux_congr (l : List String) :
    ∀ seen seen', (∀ x, x ∈ seen ↔ x ∈ seen') →
      dedupFirstAux seen l = dedupFirstAux seen' l := by
  induction l with
  | nil => intro seen seen' _; rfl
  | cons x xs ih =>
    intro seen seen' h
    simp only [dedupFirstAux]
    by_cases hx : x ∈ seen
    · rw [if_pos hx, if_pos ((h x).mp hx)]
      exact ih seen seen' h
    · rw [if_neg hx, if_neg (fun hc => hx ((h x).mpr hc))]
      refine congrArg _ (ih _ _ ?_)
      intro y
      simp only [List.mem_cons]
      exact or_congr Iff.rfl (h y)

theorem fold_matched (thr : ℚ) (ms : List SimilarityMatch) :
    ∀ st : DecisionResult,
      (ms.foldl (analyzeStep thr) st).matched_files
        = st.matched_files ++ dedupFirstAux st.matched_files (eligFiles thr ms) := by
  induction ms with
  | nil => intro st; simp [eligFiles, dedupFirstAux]
  | cons m ms ih =>
    intro st
    rw [List.foldl_cons, ih (analyzeStep thr st m)]
    cases h : eligFile thr m with
    | none =>
      have hstep : (analyzeStep thr st m).matched_files = st.matched_files := by
        rw [analyzeStep_matched, h]
      have helig : eligFiles thr (m :: ms) = eligFiles thr ms := by
        simp [eligFiles, List.filterMap_cons, h]
      rw [hstep, helig]
    | some s =>
      have hstep : (analyzeStep thr st m).matched_files
          = if s ∈ st.matched_files then st.matched_files
            else st.matched_files ++ [s] := by
        rw [analyzeStep_matched, h]
      have helig : eligFiles thr (m :: ms) = s :: eligFiles thr ms := by
        simp [eligFiles, List.filterMap_cons, h]
      by_cases hmem : s ∈ st.matched_files
      · rw [if_pos hmem] at hstep
        simp only [helig, hstep, dedupFirstAux, if_pos hmem]
      · rw [if_neg hmem] at hstep
        simp only [helig, hstep, dedupFirstAux, if_neg hmem]
        rw [List.append_assoc]
        refine congrArg _ ?_
        simp only [List.singleton_append, List.cons.injEq, true_and]
        refine dedupFirstAux_congr _ _ _ ?_
        intro y
        simp only [List.mem_append, List.mem_singleton, List.mem_cons,
          List.not_mem_nil, or_false]
        exact or_comm

theorem fold_plag (thr : ℚ) (ms : List SimilarityMatch) :
    ∀ st : DecisionResult,
      (ms.foldl (analyzeStep thr) st).plagiarism_detected
        = (st.plagiarism_detected || ms.any (fun m => decide (thr ≤ m.score))) := by
  induction ms with
  | nil => intro st; simp
  | cons m ms ih =>
    intro st
    rw [List.foldl_cons, ih (analyzeStep thr st m), analyzeStep_plag]
    simp [Bool.or_assoc]

theorem fold_max (thr : ℚ) (ms : List SimilarityMatch) :
    ∀ st : DecisionResult,
      (ms.foldl (analyzeStep thr) st).max_score
        = ms.foldl (fun a m => max a m.score) st.max_score := by
  induction ms with
  | nil => intro st; rfl
  | cons m ms ih =>
    intro st
    rw [List.foldl_cons, ih (analyzeStep thr st m), analyzeStep_max_score]
    rfl

theorem foldl_max_eq (ms : List SimilarityMatch) :
    ∀ a : ℚ, 0 ≤ a →
      ms.foldl (fun x m => max x m.score) a
        = max a ((ms.map SimilarityMatch.score).foldr max 0) := by
  induction ms with
  | nil => intro a ha; simp [max_eq_left ha]
  | cons m ms ih =>
    intro a ha
    rw [List.foldl_cons, ih (max a m.score) (le_max_of_le_left ha)]
    simp [max_assoc]

theorem foldr_max_nonneg (l : List ℚ) : 0 ≤ l.foldr max 0 := by
  induction l with
  | nil => simp
  | cons x xs ih => exact le_max_of_le_right ih

theorem le_foldr_max (l : List ℚ) (x : ℚ) (hx : x ∈ l) : x ≤ l.foldr max 0 := by
  induction l with
  | nil => cases hx
  | cons y ys ih =>
    rcases List.mem_cons.mp hx with h | h
    · subst h; exact le_max_left _ _
    · exact le_max_of_le_right (ih h)

theorem foldr_max_mem (l : List ℚ) (hne : l ≠ []) (h0 : ∀ x ∈ l, 0 ≤ x) :
    l.foldr max 0 ∈ l := by
  induction l with
  | nil => exact absurd rfl hne
  | cons y ys ih =>
    cases ys with
    | nil =>
      simp only [List.foldr]
      rw [max_eq_left (h0 y (List.mem_singleton_self y))]
      exact List.mem_singleton_self y
    | cons z zs =>
      have hmem := ih (by simp) (fun x hx => h0 x (List.mem_cons_of_mem _ hx))
      show max y ((z :: zs).foldr max 0) ∈ y :: z :: zs
      rcases le_total ((z :: zs).foldr max 0) y with hle | hle
      · rw [max_eq_left hle]
        exact List.mem_cons_self y _
      · rw [max_eq_right hle]
        exact List.mem_cons_of_mem _ hmem

theorem analyzeWith_matched (thr : ℚ) (ms : List SimilarityMatch) :
    (analyzeMatchesWith thr ms).matched_files = dedupFirst (eligFiles thr ms) := by
  unfold analyzeMatchesWith dedupFirst
  rw [fold_matched]
  rfl

theorem analyzeWith_plag_iff (thr : ℚ) (ms : List SimilarityMatch) :
    (analyzeMatchesWith thr ms).plagiarism_detected = true ↔ ∃ m ∈ ms, thr ≤ m.score := by
  unfold analyzeMatchesWith
  rw [fold_plag]
  simp [List.any_eq_true]

theorem analyzeWith_max (thr : ℚ) (ms : List SimilarityMatch) :
    (analyzeMatchesWith thr ms).max_score = (ms.map SimilarityMatch.score).foldr max 0 := by
  unfold analyzeMatchesWith
  rw [fold_max, foldl_max_eq ms 0 le_rfl]
  exact max_eq_right (foldr_max_nonneg _)

theorem eligFile_eq_none_iff (thr : ℚ) (m : SimilarityMatch) :
    eligFile thr m = none ↔ ¬(thr ≤ m.score ∧ truthySrc m.sourceFile = true) := by
  unfold eligFile truthySrc
  by_cases hth : thr ≤ m.score
  · cases hsf : m.sourceFile with
    | none => simp [hth]
    | some s =>
      by_cases hs : s = "" <;> simp [hth, hs]
  · cases m.sourceFile <;> simp [hth]

theorem dedupFirst_eq_nil_iff (l : List String) : dedupFirst l = [] ↔ l = [] := by
  cases l with
  | nil => simp [dedupFirst, dedupFirstAux]
  | cons x xs =>
    simp [dedupFirst, dedupFirstAux]

theorem eligFiles_ne_nil_iff (thr : ℚ) (ms : List SimilarityMatch) :
    eligFiles thr ms ≠ [] ↔ ∃ m ∈ ms, thr ≤ m.score ∧ truthySrc m.sourceFile = true := by
  unfold eligFiles
  rw [ne_eq, List.filterMap_eq_nil_iff]
  push_neg
  constructor
  · rintro ⟨m, hm, hne⟩
    refine ⟨m, hm, ?_⟩
    by_contra hc
    exact hne ((eligFile_eq_none_iff thr m).mpr hc)
  · rintro ⟨m, hm, hc⟩
    refine ⟨m, hm, ?_⟩
    intro hnone
    exact (eligFile_eq_none_iff thr m).mp hnone hc

/-! ## Lemmas about the string primitives and the parser -/

theorem findMarker_some_le (sep : List Char) :
    ∀ s i, findMarker sep s = some i → i + sep.length ≤ s.length := by
  intro s
  induction s with
  | nil => intro i h; simp [findMarker] at h
  | cons c rest ih =>
    intro i h
    unfold findMarker at h
    by_cases hp : sep.isPrefixOf (c :: rest)
    · rw [if_pos hp, Option.some.injEq] at h
      subst h
      have := ( List.isPrefixOf_iff_prefix.mp hp).length_le
      simpa using this
    · rw [if_neg hp] at h
      cases hrec : findMarker sep rest with
      | none => rw [hrec] at h; simp at h
      | some j =>
        rw [hrec] at h
        simp only [Option.map_some', Option.some.injEq] at h
        subst h
        have := ih j hrec
        simp only [List.length_cons]
        omega

theorem pySplitF_congr (sep : List Char) (hsep : sep ≠ []) :
    ∀ f1 f2 s, s.length ≤ f1 → s.length ≤ f2 → pySplitF sep f1 s = pySplitF sep f2 s := by
  intro f1
  induction f1 with
  | zero =>
    intro f2 s h1 _
    have hs : s = [] := List.length_eq_zero.mp (Nat.le_zero.mp h1)
    subst hs
    cases f2 with
    | zero => rfl
    | succ g => simp [pySplitF, findMarker]
  | succ f ih =>
    intro f2 s h1 h2
    cases f2 with
    | zero =>
      have hs : s = [] := List.length_eq_zero.mp (Nat.le_zero.mp h2)
      subst hs
      simp [pySplitF, findMarker]
    | succ g =>
      simp only [pySplitF]
      cases hf : findMarker sep s with
      | none => rfl
      | some i =>
        have hle := findMarker_some_le sep s i hf
        have hlen : (s.drop (i + sep.length)).length ≤ f := by
          have hpos : 1 ≤ sep.length := by
            cases sep with
            | nil => exact absurd rfl hsep
            | cons _ _ => simp
          simp only [List.length_drop]
          omega
        have hlen2 : (s.drop (i + sep.length)).length ≤ g := by
          have hpos : 1 ≤ sep.length := by
            cases sep with
            | nil => exact absurd rfl hsep
            | cons _ _ => simp
          simp only [List.length_drop]
          omega
        exact congrArg (s.take i :: ·) (ih g _ hlen hlen2)

theorem pySplit_eq (sep : List Char) (hsep : sep ≠ []) (s : List Char) :
    pySplit sep s
      = match findMarker sep s with
        | none => [s]
        | some i => s.take i :: pySplit sep (s.drop (i + sep.length)) := by
  show pySplitF sep s.length s = _
  cases hn : s.length with
  | zero =>
    have hs : s = [] := List.length_eq_zero.mp hn
    subst hs
    simp [pySplit, pySplitF, findMarker]
  | succ n =>
    simp only [pySplitF]
    cases hf : findMarker sep s with
    | none => rfl
    | some i =>
      have hle := findMarker_some_le sep s i hf
      have hpos : 1 ≤ sep.length := by
        cases sep with
        | nil => exact absurd rfl hsep
        | cons _ _ => simp
      show s.take i :: pySplitF sep n (s.drop (i + sep.length))
          = s.take i :: pySplit sep (s.drop (i + sep.length))
      refine congrArg _ (pySplitF_congr sep hsep _ _ _ ?_ ?_)
      · simp only [List.length_drop]
        omega
      · exact le_rfl

theorem parse_eq_views (o : String) :
    parse_chain_output o = parseResult (summaryOf o) (skillsOf o) := by
  have hsk : skMark ≠ [] := by decide
  unfold parse_chain_output parseResult summaryOf skillsOf beforeFirst
  rw [pySplit_eq skMark hsk o.data]
  cases hf : findMarker skMark o.data with
  | none => rfl
  | some i =>
    dsimp only
    rw [pySplit_eq skMark hsk (o.data.drop (i + skMark.length))]
    cases hf2 : findMarker skMark (o.data.drop (i + skMark.length)) with
    | none => rfl
    | some j => rfl

/-! ## Claim C1 -/

/-- C1 counterexample: for the single match with score 1 and empty source-file
label, the code sets `plagiarism_detected = True` (score 1 ≥ 0.75) but leaves
`matched_files` empty, because `if source_file and ...` rejects the falsy empty
string — so "duplicateDetected iff matchedFiles non-empty" fails. -/
theorem C1_counterexample :
    THRESHOLD ≤ (1 : ℚ)
    ∧ (analyzeMatches [⟨some "", 1⟩]).plagiarism_detected = true
    ∧ (analyzeMatches [⟨some "", 1⟩]).matched_files = []
    ∧ ¬((analyzeMatches [⟨some "", 1⟩]).plagiarism_detected = true
        ↔ (analyzeMatches [⟨some "", 1⟩]).matched_files ≠ []) := by
  decide

/-- C1 (amended): for every input sequence of similarity matches,
`plagiarism_detected` is true iff at least one match has score ≥ 0.75, and
`matched_files` is non-empty iff at least one match has score ≥ 0.75 together
with a present, non-empty `matchedSourceFile`; when every match at or above
the threshold carries a truthy source file the two conditions agree and the
original three-way equivalence holds. -/
theorem C1_decision_invariant (ms : List SimilarityMatch) :
    ((analyzeMatches ms).plagiarism_detected = true ↔ ∃ m ∈ ms, THRESHOLD ≤ m.score)
    ∧ ((analyzeMatches ms).matched_files ≠ []
        ↔ ∃ m ∈ ms, THRESHOLD ≤ m.score ∧ truthySrc m.sourceFile = true) := by
  constructor
  · exact analyzeWith_plag_iff THRESHOLD ms
  · unfold analyzeMatches
    rw [analyzeWith_matched, ne_eq, dedupFirst_eq_nil_iff]
    exact eligFiles_ne_nil_iff THRESHOLD ms

/-! ## Claim C2 -/

/-- C2 counterexample: for the single match with score 9/10 and empty
source-file label, the claim's reading of `matchedFiles` (all source files of
matches at or above the threshold, deduplicated) is `[""]`, but the code
produces `[]`: the truthiness guard drops the empty string. -/
theorem C2_counterexample :
    THRESHOLD ≤ (⟨9, 10, by decide, by decide⟩ : ℚ)
    ∧ (analyzeMatches [⟨some "", ⟨9, 10, by decide, by decide⟩⟩]).matched_files = []
    ∧ specMatchedFiles THRESHOLD [⟨some "", ⟨9, 10, by decide, by decide⟩⟩] = [""]
    ∧ (analyzeMatches [⟨some "", ⟨9, 10, by decide, by decide⟩⟩]).matched_files
        ≠ specMatchedFiles THRESHOLD [⟨some "", ⟨9, 10, by decide, by decide⟩⟩] := by
  decide

/-- C2 (amended): for every input sequence of matches, `matched_files` is
exactly the list of `matchedSourceFile` values of the matches whose score is
at least 0.75 **and** whose source file is present and non-empty, with
duplicates removed, in the order each file is first encountered in the ranked
input sequence. -/
theorem C2_matched_files (ms : List SimilarityMatch) :
    (analyzeMatches ms).matched_files = dedupFirst (eligFiles THRESHOLD ms) := by
  unfold analyzeMatches
  exact analyzeWith_matched THRESHOLD ms

/-! ## Claim C3 -/

/-- C3: for matches whose scores lie in [0, 1], `max_score` is the maximum of
all scores (as `foldr max 0`), is 0 on the empty sequence, bounds every score,
is attained by some match when the sequence is non-empty, and is independent
of the threshold. -/
theorem C3_max_score (ms : List SimilarityMatch)
    (h : ∀ m ∈ ms, 0 ≤ m.score ∧ m.score ≤ 1) :
    ((analyzeMatches ms).max_score = (ms.map SimilarityMatch.score).foldr max 0)
    ∧ (ms = [] → (analyzeMatches ms).max_score = 0)
    ∧ (∀ m ∈ ms, m.score ≤ (analyzeMatches ms).max_score)
    ∧ (ms ≠ [] → (analyzeMatches ms).max_score ∈ ms.map SimilarityMatch.score)
    ∧ (∀ thr, (analyzeMatchesWith thr ms).max_score = (analyzeMatches ms).max_score) := by
  have hmax : (analyzeMatches ms).max_score
      = (ms.map SimilarityMatch.score).foldr max 0 := analyzeWith_max THRESHOLD ms
  refine ⟨hmax, ?_, ?_, ?_, ?_⟩
  · intro he
    subst he
    simpa using hmax
  · intro m hm
    rw [hmax]
    exact le_foldr_max _ _ (List.mem_map_of_mem _ hm)
  · intro hne
    rw [hmax]
    refine foldr_max_mem _ ?_ ?_
    · simpa using hne
    · intro x hx
      rcases List.mem_map.mp hx with ⟨m, hm, hxm⟩
      exact hxm ▸ (h m hm).1
  · intro thr
    rw [analyzeWith_max thr ms]
    exact hmax.symm

/-- C3 witness: the theorem applied to a concrete two-match input with scores
1 and 0. -/
theorem C3_witness :
    (analyzeMatches [⟨some "a.pdf", 1⟩, ⟨none, 0⟩]).max_score
      = (([⟨some "a.pdf", 1⟩, ⟨none, 0⟩] : List SimilarityMatch).map
          SimilarityMatch.score).foldr max 0 :=
  (C3_max_score [⟨some "a.pdf", 1⟩, ⟨none, 0⟩] (by decide)).1

/-! ## Claims C4-C6 -/

/-- C4: for every decision and every insert outcome, `add_documents` is
invoked exactly when `plagiarism_detected` is false, at most once per request,
and the response field `document_added` is the negation of the response field
`plagiarism_detected`. -/
theorem C4_admission_exclusivity (d : DecisionResult) (oc : InsertOutcome) :
    ((requestTail d oc).1.count CorpusEvent.insertDoc
      = if d.plagiarism_detected then 0 else 1)
    ∧ (0 < (requestTail d oc).1.count CorpusEvent.insertDoc
        ↔ d.plagiarism_detected = false)
    ∧ (requestTail d oc).1.count CorpusEvent.insertDoc ≤ 1
    ∧ (requestTail d oc).2.body.document_added
        = !(requestTail d oc).2.body.plagiarism_detected := by
  cases oc <;> cases hd : d.plagiarism_detected <;>
    simp [requestTail, insertEvents, responseOf, hd]

/-- C5: when the decision is "no duplicate" and the corpus insert raises, the
request still completes with status 200 and the response carries the
`plagiarism_detected` and `max_score` computed before the insert attempt,
identical to the response of the successful-insert path. -/
theorem C5_insert_failure_isolation (d : DecisionResult)
    (_h : d.plagiarism_detected = false) :
    (requestTail d .failed).2.status = 200
    ∧ (requestTail d .failed).2.body.plagiarism_detected = d.plagiarism_detected
    ∧ (requestTail d .failed).2.body.max_score = round4 d.max_score
    ∧ (requestTail d .failed).2.body.matched_files = d.matched_files
    ∧ (requestTail d .failed).2 = (requestTail d .ok).2 := by
  exact ⟨rfl, rfl, rfl, rfl, rfl⟩

/-- C5 witness: the theorem applied to the decision `⟨false, 0, []⟩`. -/
theorem C5_witness :
    (requestTail ⟨false, 0, []⟩ .failed).2.status = 200
    ∧ (requestTail ⟨false, 0, []⟩ .failed).2.body.plagiarism_detected
        = (⟨false, 0, []⟩ : DecisionResult).plagiarism_detected
    ∧ (requestTail ⟨false, 0, []⟩ .failed).2.body.max_score
        = round4 (⟨false, 0, []⟩ : DecisionResult).max_score
    ∧ (requestTail ⟨false, 0, []⟩ .failed).2.body.matched_files
        = (⟨false, 0, []⟩ : DecisionResult).matched_files
    ∧ (requestTail ⟨false, 0, []⟩ .failed).2 = (requestTail ⟨false, 0, []⟩ .ok).2 :=
  C5_insert_failure_isolation ⟨false, 0, []⟩ rfl

/-- C6 counterexample: after a no-duplicate decision (here with best score 1/2,
below the threshold), a failed corpus insert still produces
`document_added = True` — the `except` block at `main.py` lines 280-282 only
logs, and line 290 sets `document_added = not plagiarism_detected` regardless,
so the field is not suppressed to `False` as claimed. -/
theorem C6_counterexample :
    (requestTail ⟨false, ⟨1, 2, by decide, by decide⟩, []⟩
        InsertOutcome.failed).2.body.document_added ≠ false := by
  decide

/-- C6 (amended): when the corpus insert fails after a no-duplicate decision,
the HTTP outcome is unchanged (status 200, same body as the successful-insert
path) and `document_added` is still reported as `true` (the negation of
`plagiarism_detected`), not suppressed; the failure is only logged. -/
theorem C6_insert_failure_document_added (d : DecisionResult)
    (h : d.plagiarism_detected = false) :
    (requestTail d .failed).2 = (requestTail d .ok).2
    ∧ (requestTail d .failed).2.body.document_added = true
    ∧ (requestTail d .failed).2.status = 200 := by
  refine ⟨rfl, ?_, rfl⟩
  simp [requestTail, responseOf, h]

/-- C6 witness: the amended theorem applied to the decision `⟨false, 1/4, []⟩`. -/
theorem C6_witness :
    (requestTail ⟨false, ⟨1, 4, by decide, by decide⟩, []⟩ .failed).2
        = (requestTail ⟨false, ⟨1, 4, by decide, by decide⟩, []⟩ .ok).2
    ∧ (requestTail ⟨false, ⟨1, 4, by decide, by decide⟩, []⟩
        .failed).2.body.document_added = true
    ∧ (requestTail ⟨false, ⟨1, 4, by decide, by decide⟩, []⟩ .failed).2.status = 200 :=
  C6_insert_failure_document_added ⟨false, ⟨1, 4, by decide, by decide⟩, []⟩ rfl

/-! ## Claims C7-C8 -/

/-- C7 counterexample: on `"SUMMARY:\nfoo\nSKILLS: a SKILLS: b"` the parser
returns skills `"a"` — `split("SKILLS:")` makes `parts[1]` the segment between
the first and second markers — while the claim's "text after the first
`SKILLS:` occurrence" is `"a SKILLS: b"`. -/
theorem C7_counterexample :
    parse_chain_output "SUMMARY:\nfoo\nSKILLS: a SKILLS: b" = .ok ("foo", "a")
    ∧ String.mk (specSkills "SUMMARY:\nfoo\nSKILLS: a SKILLS: b") = "a SKILLS: b"
    ∧ ("a" : String) ≠ "a SKILLS: b" := by
  decide

/-- C7 (amended): for every raw summarizer output, the parser yields as summary
the text before the first `SKILLS:` occurrence with the occurrences of the
literal marker `SUMMARY:` removed and surrounding whitespace trimmed, and as
skills the whitespace-trimmed text from just after the first `SKILLS:`
occurrence up to the next `SKILLS:` occurrence (to the end when there is no
second one), or the empty string when the marker is absent; the result is the
summary/skills pair unless the summary is empty, in which case it is the
500 error. -/
theorem C7_parser_contract (o : String) :
    parse_chain_output o = parseResult (summaryOf o) (skillsOf o) :=
  parse_eq_views o

/-- C8: the parser fails — with the HTTP 500 error — exactly when the computed
summary (text before the first `SKILLS:` marker, `SUMMARY:` removed, trimmed)
is empty; on any non-empty summary it succeeds. -/
theorem C8_parse_failure_iff (o : String) :
    (∃ e, parse_chain_output o = Except.error e ∧ e.status = 500)
      ↔ summaryOf o = [] := by
  rw [parse_eq_views o]
  unfold parseResult
  by_cases h : summaryOf o = []
  · simp only [h, if_true, ite_true]
    constructor
    · intro _
      exact trivial
    · intro _
      exact ⟨⟨500, "Failed to process document content"⟩, rfl, rfl⟩
  · simp only [h, if_false, ite_false]
    constructor
    · rintro ⟨e, he, _⟩
      exact Except.noConfusion he
    · intro hc
      exact hc.elim

/-! ## Lemmas about `validate_file` -/

theorem sizeCond_iff (sz : Option Nat) :
    (truthySize sz && decide (MAX_FILE_SIZE < sz.getD 0)) = true
      ↔ ∃ n, sz = some n ∧ 0 < n ∧ MAX_FILE_SIZE < n := by
  cases sz with
  | none => simp [truthySize]
  | some n =>
    simp only [truthySize, Option.getD_some, Bool.and_eq_true, bne_iff_ne, ne_eq,
      decide_eq_true_eq, Option.some.injEq]
    constructor
    · rintro ⟨hn, hlt⟩
      exact ⟨n, rfl, Nat.pos_of_ne_zero hn, hlt⟩
    · rintro ⟨m, hm, hpos, hlt⟩
      subst hm
      exact ⟨Nat.pos_iff_ne_zero.mp hpos, hlt⟩

theorem validate_file_of_sizeCond (f : UploadFile)
    (h : (truthySize f.size && decide (MAX_FILE_SIZE < f.size.getD 0)) = true) :
    validate_file f = .error ⟨413, "File size too large (max 10MB)"⟩ := by
  unfold validate_file
  rw [if_pos h]

theorem validate_file_no413 (f : UploadFile)
    (h : (truthySize f.size && decide (MAX_FILE_SIZE < f.size.getD 0)) = false) :
    ∀ e, validate_file f = .error e → e.status ≠ 413 := by
  intro e he
  unfold validate_file at he
  rw [h] at he
  simp only [Bool.false_eq_true, if_false, ite_false] at he
  split at he
  · cases he
    decide
  · split at he
    · cases he
      decide
    · split at he
      · cases he
        decide
      · exact Except.noConfusion he

theorem validate_file_dataLen_irrelevant (f : UploadFile) (len : Nat) :
    validate_file { f with dataLen := len } = validate_file f := by
  rfl

/-! ## Claim C9 -/

/-- C9: a `POST /check-plagiarism` request whose uploaded file part is missing
its filename (absent or empty) fails FastAPI request validation with HTTP
status 422 before `validate_file` runs (modelled from the spec and from the
repository test `test_empty_filename`). -/
theorem C9_missing_filename_422 (p : MultipartPart)
    (h : p.filename = none ∨ p.filename = some "") :
    uploadPhase p = .error ⟨422, "Unprocessable Entity"⟩ := by
  unfold uploadPhase bindUploadFile
  rw [if_pos h]

/-- C9 witness: the theorem applied to a part with no filename. -/
theorem C9_witness :
    uploadPhase ⟨none, some "application/pdf", none, 64⟩
      = .error ⟨422, "Unprocessable Entity"⟩ :=
  C9_missing_filename_422 ⟨none, some "application/pdf", none, 64⟩ (Or.inl rfl)

/-! ## Claim C10 -/

/-- C10: `validate_file` raises the 413 oversized-file error exactly when the
upload reports a truthy `size` attribute greater than 10 MiB; when the `size`
attribute is `None` or `0`, the validation outcome never is 413 and is
independent of the actual byte length of the upload. -/
theorem C10_size_check (f : UploadFile) :
    ((∃ e, validate_file f = .error e ∧ e.status = 413)
      ↔ ∃ n, f.size = some n ∧ 0 < n ∧ MAX_FILE_SIZE < n)
    ∧ ((f.size = none ∨ f.size = some 0) →
        (∀ len : Nat, validate_file { f with dataLen := len } = validate_file f)
        ∧ (∀ e, validate_file f = .error e → e.status ≠ 413)) := by
  constructor
  · rw [← sizeCond_iff f.size]
    by_cases h : (truthySize f.size && decide (MAX_FILE_SIZE < f.size.getD 0)) = true
    · rw [iff_true_intro h, iff_true]
      exact ⟨⟨413, "File size too large (max 10MB)"⟩, validate_file_of_sizeCond f h, rfl⟩
    · have h' := Bool.not_eq_true _ |>.mp h
      constructor
      · rintro ⟨e, he, hst⟩
        exact absurd hst (validate_file_no413 f h' e he)
      · intro hc
        exact absurd hc h
  · intro hs
    refine ⟨validate_file_dataLen_irrelevant f, ?_⟩
    refine validate_file_no413 f ?_
    rcases hs with hn | h0
    · rw [hn]; rfl
    · rw [h0]; rfl

/-- C10 witness: the theorem applied to an upload with `size = None` and a
large actual byte length, which validates the same as with a tiny one. -/
theorem C10_witness :
    validate_file ⟨some "a.pdf", some "application/pdf", none, 99999999⟩
      = validate_file ⟨some "a.pdf", some "application/pdf", none, 7⟩ :=
  ((C10_size_check ⟨some "a.pdf", some "application/pdf", none, 7⟩).2
    (Or.inl rfl)).1 99999999

/-! ## Sanity checks: the spec's concrete testable properties (spec section 8) -/

/-- Threshold sanity: the embedded threshold is the rational 3/4 = 0.75. -/
theorem THRESHOLD_eq_three_quarters : THRESHOLD = 3 / 4 := by
  rw [THRESHOLD, Rat.mk'_eq_divInt, Rat.divInt_eq_div]
  norm_num

/-- Threshold inclusivity: a match scoring exactly 0.75 is flagged and listed. -/
theorem sanity_threshold_inclusive :
    analyzeMatches [⟨some "boundary.pdf", THRESHOLD⟩]
      = ⟨true, THRESHOLD, ["boundary.pdf"]⟩ := by
  decide

/-- Max-score independence: scores 1/2 and 3/10 stay below the threshold, yet
the best score is reported. -/
theorem sanity_max_score_below_threshold :
    analyzeMatches [⟨some "A", ⟨1, 2, by decide, by decide⟩⟩,
        ⟨some "B", ⟨3, 10, by decide, by decide⟩⟩]
      = ⟨false, ⟨1, 2, by decide, by decide⟩, []⟩ := by
  decide

/-- Deduplication: two matches with the same source file yield one entry. -/
theorem sanity_dedup :
    (analyzeMatches [⟨some "A", ⟨9, 10, by decide, by decide⟩⟩,
        ⟨some "A", ⟨9, 10, by decide, by decide⟩⟩]).matched_files = ["A"] := by
  decide

/-- Ordering preserved: matched files appear in first-seen order. -/
theorem sanity_order :
    (analyzeMatches [⟨some "B", ⟨4, 5, by decide, by decide⟩⟩,
        ⟨some "A", ⟨19, 25, by decide, by decide⟩⟩]).matched_files = ["B", "A"] := by
  decide

/-- Empty input: no matches give the all-empty decision. -/
theorem sanity_empty : analyzeMatches [] = ⟨false, 0, []⟩ := by
  decide

/-- Parser round-trip, first spec example. -/
theorem sanity_parse_roundtrip :
    parse_chain_output "SUMMARY:\nfoo\n\nSKILLS:\nbar,baz" = .ok ("foo", "bar,baz") := by
  decide

/-- Parser round-trip, second spec example: missing marker gives empty skills. -/
theorem sanity_parse_no_skills :
    parse_chain_output "SUMMARY:\nfoo" = .ok ("foo", "") := by
  decide

/-- Parser round-trip, third spec example: empty summary fails with the 500
error. -/
theorem sanity_parse_empty_summary :
    parse_chain_output "SUMMARY:\n"
      = .error ⟨500, "Failed to process document content"⟩ := by
  decide
